import Mathlib

/-!
# Verification of the Weather_fetch pipeline

Shallow embedding of `src/Weather_fetch.py`: a four-stage batch pipeline
(fetch → store → clean → summarize).  Numeric cell values are modelled as
`Option ℚ`, with `none` standing for a missing value (pandas `NaN` arising
from an empty/unparsable CSV cell).  Pandas comparison semantics are kept:
comparing a missing value with a constant yields `false`, `mean`/`max`/`min`
skip missing values, and `fillna` leaves a value unchanged when it is present
(or when the fill value itself is missing, i.e. the mean of an all-missing
column).
-/

namespace Weather

/-- One materialized row of the tabular file
(columns `Time, Temperature, Humidity, Wind Speed`).
The three numeric cells are `none` when the cell is missing (pandas `NaN`). -/
structure Row where
  time : String
  temperature : Option ℚ
  humidity : Option ℚ
  windSpeed : Option ℚ
  deriving DecidableEq, Repr

/-- Pandas semantics of `df[col] >= c`: a missing value compares `false`. -/
def cmpGe (v : Option ℚ) (c : ℚ) : Bool :=
  match v with
  | none => false
  | some x => c ≤ x

/-- Pandas semantics of `df[col] <= c`: a missing value compares `false`. -/
def cmpLe (v : Option ℚ) (c : ℚ) : Bool :=
  match v with
  | none => false
  | some x => x ≤ c

/-- `(df["Temperature"] >= 0) & (df["Temperature"] <= 60)` at one row. -/
def tempOk (r : Row) : Bool :=
  cmpGe r.temperature 0 && cmpLe r.temperature 60

/-- `(df["Humidity"] >= 0) & (df["Humidity"] <= 80)` at one row. -/
def humOk (r : Row) : Bool :=
  cmpGe r.humidity 0 && cmpLe r.humidity 80

/-- `(df["Wind Speed"] >= 3) & (df["Wind Speed"] <= 150)` at one row. -/
def windOk (r : Row) : Bool :=
  cmpGe r.windSpeed 3 && cmpLe r.windSpeed 150

/-- Conjunction of the three `ValidationRule` checks of `clean_data`. -/
def rowValid (r : Row) : Bool :=
  tempOk r && humOk r && windOk r

/-- The three successive boolean-mask filters of `clean_data`
(lines 61–63 of `Weather_fetch.py`). -/
def filterRows (rows : List Row) : List Row :=
  ((rows.filter tempOk).filter humOk).filter windOk

/-- Pandas `Series.mean()`: the arithmetic mean of the present values,
`none` (NaN) when no value is present. -/
def colMean (vs : List (Option ℚ)) : Option ℚ :=
  let xs := vs.filterMap id
  if xs.length = 0 then none else some (xs.sum / xs.length)

/-- Pandas `Series.max()`: maximum of the present values, `none` when empty. -/
def colMax (vs : List (Option ℚ)) : Option ℚ :=
  match vs.filterMap id with
  | [] => none
  | x :: xs => some (xs.foldl max x)

/-- Pandas `Series.min()`: minimum of the present values, `none` when empty. -/
def colMin (vs : List (Option ℚ)) : Option ℚ :=
  match vs.filterMap id with
  | [] => none
  | x :: xs => some (xs.foldl min x)

/-- Pandas `fillna`: a present value is kept; a missing value is replaced by
the fill value (which may itself be missing, leaving the cell missing). -/
def fillVal (m : Option ℚ) (v : Option ℚ) : Option ℚ :=
  match v with
  | none => m
  | some x => some x

/-- `df[numeric_columns] = df[numeric_columns].fillna(df[numeric_columns].mean())`
(line 67 of `Weather_fetch.py`): per-column mean over the post-filter rows,
used to fill the missing cells of that column; the `Time` column is untouched. -/
def imputeRows (rows : List Row) : List Row :=
  rows.map (fun r =>
    { r with
      temperature := fillVal (colMean (rows.map (·.temperature))) r.temperature
      humidity := fillVal (colMean (rows.map (·.humidity))) r.humidity
      windSpeed := fillVal (colMean (rows.map (·.windSpeed))) r.windSpeed })

/-- `clean_data`, at the level of the parsed data rows: range-filter then
impute (lines 58–67 of `Weather_fetch.py`). -/
def clean_data (rows : List Row) : List Row :=
  imputeRows (filterRows rows)

/-- The fixed header row written by both `save_to_csv` and
`df.to_csv` (whose column labels come from the same header). -/
def csvHeader : List String :=
  ["Time", "Temperature", "Humidity", "Wind Speed"]

/-- A written tabular file: the header row plus the data rows. -/
structure CsvTable where
  header : List String
  rows : List Row
  deriving DecidableEq, Repr

/-- The file written by `df.to_csv(output_file, index=False)` at the end of
`clean_data`: the header plus the cleaned rows, no index column. -/
def clean_data_file (rows : List Row) : CsvTable :=
  ⟨csvHeader, clean_data rows⟩

/-- The relevant subset of the decoded API payload (the `hourly` JSON object):
four parallel sequences indexed by position.  The theorems about the Writer
assume the four sequences have equal length (on unequal lengths the Python
loop would raise an `IndexError`, which is out of the model). -/
structure RawWeatherBatch where
  time : List String
  temperature_2m : List ℚ
  relative_humidity_2m : List ℚ
  wind_speed_10m : List ℚ
  deriving DecidableEq, Repr

/-- The default row used only to totalize list indexing; never produced when
the index is in range. -/
def dummyRow : Row := ⟨"", none, none, none⟩

/-- The data rows written by the loop of `save_to_csv` (lines 40–46):
one row per index `i` in `range(len(data["time"]))`, holding
`[time[i], temperature_2m[i], relative_humidity_2m[i], wind_speed_10m[i]]`. -/
def writerRows (b : RawWeatherBatch) : List Row :=
  (List.range b.time.length).map (fun i =>
    ⟨b.time.getD i "",
     some (b.temperature_2m.getD i 0),
     some (b.relative_humidity_2m.getD i 0),
     some (b.wind_speed_10m.getD i 0)⟩)

/-- Outcome of `save_to_csv`: either the "no data available to save" early
return (no file is created or overwritten), or the written file. -/
inductive WriterResult where
  | noData
  | wrote (t : CsvTable)
  deriving DecidableEq, Repr

/-- `save_to_csv(data, filename)`: `none` models a falsy `data`
(the `None` returned by the fetcher on failure).  On real data it opens the
file for full overwrite and writes the header row then the data rows. -/
def save_to_csv (data : Option RawWeatherBatch) : WriterResult :=
  match data with
  | none => WriterResult.noData
  | some b => WriterResult.wrote ⟨csvHeader, writerRows b⟩

/-- The HTTP response as inspected by `fetch_weather_data`:
its status code, whether the decoded JSON has an `"hourly"` key, whether that
object has a `"temperature_2m"` key, and the `hourly` payload itself.
The `hourly` field is only meaningful when `hasHourly = true`. -/
structure ApiResponse where
  status_code : ℤ
  hasHourly : Bool
  hourlyHasTemperature2m : Bool
  hourly : RawWeatherBatch
  deriving DecidableEq, Repr

/-- Outcome of `fetch_weather_data`: the returned `hourly` object, or one of
the two reported failure modes (each of which returns `None` in Python). -/
inductive FetchResult where
  | ok (b : RawWeatherBatch)
  | missingField
  | httpError (code : ℤ)
  deriving DecidableEq, Repr

/-- `fetch_weather_data()` (lines 10–23): on status 200 returns
`data["hourly"]` when `"hourly" in data and "temperature_2m" in data["hourly"]`,
otherwise warns and returns `None`; on any other status reports the code and
returns `None`. -/
def fetch_weather_data (r : ApiResponse) : FetchResult :=
  if r.status_code = 200 then
    if r.hasHourly && r.hourlyHasTemperature2m then
      FetchResult.ok r.hourly
    else
      FetchResult.missingField
  else
    FetchResult.httpError r.status_code

/-- The Python value handed from the fetcher to the writer in `__main__`:
`None` on either failure mode, the batch on success. -/
def fetchToOption (f : FetchResult) : Option RawWeatherBatch :=
  match f with
  | FetchResult.ok b => some b
  | FetchResult.missingField => none
  | FetchResult.httpError _ => none

/-- The `__main__` block (lines 101–107) up to the Writer: fetch, then the
guard `if weather_data:` — the Writer (and the rest of the pipeline) runs
only when the fetched value is truthy.  A successful fetch returns the
non-empty `hourly` dict (truthy), a failed fetch returns `None` (falsy), so
truthiness coincides with `fetchToOption` being `some`.  The result is
`none` when the guard is falsy: `save_to_csv` is never invoked in that run,
so nothing is printed by it and no file is touched. -/
def main_pipeline (r : ApiResponse) : Option WriterResult :=
  match fetchToOption (fetch_weather_data r) with
  | none => none
  | some b => some (save_to_csv (some b))

/-- The two digits after the decimal point of a `.2f` rendering:
tens digit then units digit of `k % 100`. -/
def twoDigits (k : ℕ) : String :=
  ⟨[Nat.digitChar (k / 10 % 10), Nat.digitChar (k % 10)]⟩

/-- Rendering of an integer number of hundredths as a `.2f` string:
optional sign, then the integer part, then `.`, then two digits. -/
def format2i (n : ℤ) : String :=
  (if n < 0 then "-" else "") ++ toString (n.natAbs / 100) ++ "." ++ twoDigits (n.natAbs % 100)

/-- Python `f"{value:.2f}"` on a (rational-valued) number: the value rounded
to a multiple of 1/100, rendered with exactly two digits after the point.
Python rounds exact half-way cases of the underlying binary float to even;
no value appearing in the claims is a half-way case, where the two
roundings agree. -/
def format2 (q : ℚ) : String :=
  format2i (round (q * 100))

/-- Python `f"{value:.2f}"` on a possibly-NaN column statistic:
`f"{float('nan'):.2f}"` prints `nan`. -/
def formatVal (v : Option ℚ) : String :=
  match v with
  | none => "nan"
  | some q => format2 q

/-- Outcome of `summarize_data`: the "no data available to summarize" early
return on an empty table, or the printed metric lines in order. -/
inductive SummarizeResult where
  | noData
  | report (lines : List String)
  deriving DecidableEq, Repr

/-- `summarize_data(filename)` (lines 76–97): on a non-empty table prints the
six metrics of the `summary` dict, each through `f"{key}: {value:.2f}"`, in
the dict's insertion order.  `len(df)` counts all rows; the pandas
`mean`/`max`/`min` skip missing values. -/
def summarize_data (rows : List Row) : SummarizeResult :=
  if rows.length = 0 then
    SummarizeResult.noData
  else
    SummarizeResult.report
      ["Total Records: " ++ format2 (rows.length : ℚ),
       "Avg Temperature: " ++ formatVal (colMean (rows.map (·.temperature))),
       "Max Temperature: " ++ formatVal (colMax (rows.map (·.temperature))),
       "Min Temperature: " ++ formatVal (colMin (rows.map (·.temperature))),
       "Avg Humidity: " ++ formatVal (colMean (rows.map (·.humidity))),
       "Avg Wind Speed: " ++ formatVal (colMean (rows.map (·.windSpeed)))]

/-- Whether a printed line ends in a decimal point followed by exactly two
digits (the shape `f"{value:.2f}"` produces on any finite value):
the last three characters are `.`, digit, digit. -/
def endsTwoDigits (s : String) : Bool :=
  match s.data.reverse with
  | b :: a :: dot :: _ => b.isDigit && a.isDigit && dot = '.'
  | _ => false

/-! ## Lemmas about the Cleaner -/

lemma cmpGe_eq_true {v : Option ℚ} {c : ℚ} (h : cmpGe v c = true) :
    ∃ x, v = some x ∧ c ≤ x := by
  cases v with
  | none => simp [cmpGe] at h
  | some x => exact ⟨x, rfl, by simpa [cmpGe] using h⟩

lemma cmpLe_eq_true {v : Option ℚ} {c : ℚ} (h : cmpLe v c = true) :
    ∃ x, v = some x ∧ x ≤ c := by
  cases v with
  | none => simp [cmpLe] at h
  | some x => exact ⟨x, rfl, by simpa [cmpLe] using h⟩

lemma tempOk_some {r : Row} (h : tempOk r = true) :
    ∃ x, r.temperature = some x ∧ 0 ≤ x ∧ x ≤ 60 := by
  rw [tempOk, Bool.and_eq_true] at h
  obtain ⟨x, hx, h1⟩ := cmpGe_eq_true h.1
  obtain ⟨y, hy, h2⟩ := cmpLe_eq_true h.2
  rw [hx] at hy
  exact ⟨x, hx, h1, by simpa [← Option.some_inj.mp hy] using h2⟩

lemma humOk_some {r : Row} (h : humOk r = true) :
    ∃ x, r.humidity = some x ∧ 0 ≤ x ∧ x ≤ 80 := by
  rw [humOk, Bool.and_eq_true] at h
  obtain ⟨x, hx, h1⟩ := cmpGe_eq_true h.1
  obtain ⟨y, hy, h2⟩ := cmpLe_eq_true h.2
  rw [hx] at hy
  exact ⟨x, hx, h1, by simpa [← Option.some_inj.mp hy] using h2⟩

lemma windOk_some {r : Row} (h : windOk r = true) :
    ∃ x, r.windSpeed = some x ∧ 3 ≤ x ∧ x ≤ 150 := by
  rw [windOk, Bool.and_eq_true] at h
  obtain ⟨x, hx, h1⟩ := cmpGe_eq_true h.1
  obtain ⟨y, hy, h2⟩ := cmpLe_eq_true h.2
  rw [hx] at hy
  exact ⟨x, hx, h1, by simpa [← Option.some_inj.mp hy] using h2⟩

lemma rowValid_parts {r : Row} (h : rowValid r = true) :
    tempOk r = true ∧ humOk r = true ∧ windOk r = true := by
  rw [rowValid, Bool.and_eq_true, Bool.and_eq_true] at h
  exact ⟨h.1.1, h.1.2, h.2⟩

/-- The three successive boolean-mask filters amount to one filter by the
conjunction of the three range checks. -/
lemma filterRows_eq_filter (rows : List Row) :
    filterRows rows = rows.filter rowValid := by
  rw [filterRows, List.filter_filter, List.filter_filter]
  apply List.filter_congr
  intro a _
  rw [rowValid]
  cases tempOk a <;> cases humOk a <;> cases windOk a <;> rfl

lemma mem_filterRows_valid {r : Row} {rows : List Row}
    (h : r ∈ filterRows rows) : rowValid r = true := by
  rw [filterRows_eq_filter] at h
  exact (List.mem_filter.mp h).2

/-- On a list of rows that all pass the three range checks, every numeric
cell is present, so `fillna` replaces nothing. -/
lemma imputeRows_of_valid {l : List Row} (h : ∀ r ∈ l, rowValid r = true) :
    imputeRows l = l := by
  rw [imputeRows]
  have hmap : ∀ r ∈ l,
      ({ r with
        temperature := fillVal (colMean (l.map (·.temperature))) r.temperature
        humidity := fillVal (colMean (l.map (·.humidity))) r.humidity
        windSpeed := fillVal (colMean (l.map (·.windSpeed))) r.windSpeed } : Row) = r := by
    intro r hr
    obtain ⟨hto, hho, hwo⟩ := rowValid_parts (h r hr)
    obtain ⟨t, htt, -⟩ := tempOk_some hto
    obtain ⟨hu, hhh, -⟩ := humOk_some hho
    obtain ⟨w, hww, -⟩ := windOk_some hwo
    cases r
    simp only at htt hhh hww
    simp [htt, hhh, hww, fillVal]
  calc l.map _ = l.map id := List.map_congr_left hmap
  _ = l := List.map_id l

/-- The whole Cleaner equals the pure row filter by `rowValid`. -/
lemma clean_data_eq_filter (rows : List Row) :
    clean_data rows = rows.filter rowValid := by
  rw [clean_data, imputeRows_of_valid (fun r hr => mem_filterRows_valid hr),
    filterRows_eq_filter]

/-! ## Lemmas about the Writer -/

/-- Every data row written from a batch whose values all lie inside the
three validation intervals passes all three range checks. -/
lemma writerRows_valid (b : RawWeatherBatch)
    (h1 : b.temperature_2m.length = b.time.length)
    (h2 : b.relative_humidity_2m.length = b.time.length)
    (h3 : b.wind_speed_10m.length = b.time.length)
    (ht : ∀ x ∈ b.temperature_2m, 0 ≤ x ∧ x ≤ 60)
    (hh : ∀ x ∈ b.relative_humidity_2m, 0 ≤ x ∧ x ≤ 80)
    (hw : ∀ x ∈ b.wind_speed_10m, 3 ≤ x ∧ x ≤ 150) :
    ∀ r ∈ writerRows b, rowValid r = true := by
  intro r hr
  rw [writerRows] at hr
  simp only [List.mem_map, List.mem_range] at hr
  obtain ⟨i, hi, rfl⟩ := hr
  have hmt : b.temperature_2m.getD i 0 ∈ b.temperature_2m := by
    rw [List.getD_eq_getElem _ _ (by omega : i < b.temperature_2m.length)]
    exact List.getElem_mem _
  have hmh : b.relative_humidity_2m.getD i 0 ∈ b.relative_humidity_2m := by
    rw [List.getD_eq_getElem _ _ (by omega : i < b.relative_humidity_2m.length)]
    exact List.getElem_mem _
  have hmw : b.wind_speed_10m.getD i 0 ∈ b.wind_speed_10m := by
    rw [List.getD_eq_getElem _ _ (by omega : i < b.wind_speed_10m.length)]
    exact List.getElem_mem _
  obtain ⟨ha1, ha2⟩ := ht _ hmt
  obtain ⟨hb1, hb2⟩ := hh _ hmh
  obtain ⟨hc1, hc2⟩ := hw _ hmw
  simp only [rowValid, tempOk, humOk, windOk, cmpGe, cmpLe, Bool.and_eq_true,
    decide_eq_true_eq]
  exact ⟨⟨⟨ha1, ha2⟩, hb1, hb2⟩, hc1, hc2⟩

/-! ## Lemmas about the Summarizer's formatting -/

lemma digitChar_isDigit {d : ℕ} (h : d < 10) : (Nat.digitChar d).isDigit = true := by
  interval_cases d <;> rfl

/-- A string whose character list ends in a point followed by two digit
characters ends in two decimal places. -/
lemma endsTwoDigits_shape (l : List Char) (c1 c2 : Char) (s : String)
    (hs : s.data = l ++ ['.', c1, c2]) (h1 : c1.isDigit = true) (h2 : c2.isDigit = true) :
    endsTwoDigits s = true := by
  simp [endsTwoDigits, hs, List.reverse_append, h1, h2]

/-- Any printed line of the form `label ++ format2 value` ends in a decimal
point followed by exactly two digits. -/
lemma endsTwoDigits_label_format2 (label : String) (q : ℚ) :
    endsTwoDigits (label ++ format2 q) = true := by
  refine endsTwoDigits_shape
    (label.data ++ (if round (q * 100) < 0 then "-" else "").data ++
      (toString ((round (q * 100)).natAbs / 100)).data)
    (Nat.digitChar ((round (q * 100)).natAbs % 100 / 10 % 10))
    (Nat.digitChar ((round (q * 100)).natAbs % 100 % 10)) _ ?_ ?_ ?_
  · simp [format2, format2i, twoDigits, String.data_append, List.append_assoc]
  · exact digitChar_isDigit (Nat.mod_lt _ (by norm_num))
  · exact digitChar_isDigit (Nat.mod_lt _ (by norm_num))

lemma filterMap_id_ne_nil {vs : List (Option ℚ)}
    (h : vs.any Option.isSome = true) : vs.filterMap id ≠ [] := by
  rw [List.any_eq_true] at h
  obtain ⟨v, hv, hs⟩ := h
  obtain ⟨x, rfl⟩ := Option.isSome_iff_exists.mp hs
  intro hnil
  have hx : x ∈ vs.filterMap id := List.mem_filterMap.mpr ⟨some x, hv, rfl⟩
  simp [hnil] at hx

lemma colMean_isSome {vs : List (Option ℚ)}
    (h : vs.any Option.isSome = true) : ∃ q, colMean vs = some q := by
  have hne := filterMap_id_ne_nil h
  rw [colMean]
  simp only [List.length_eq_zero]
  exact ⟨_, by rw [if_neg hne]⟩

lemma colMax_isSome {vs : List (Option ℚ)}
    (h : vs.any Option.isSome = true) : ∃ q, colMax vs = some q := by
  have hne := filterMap_id_ne_nil h
  rw [colMax]
  cases hx : vs.filterMap id with
  | nil => exact absurd hx hne
  | cons a l => exact ⟨_, rfl⟩

lemma colMin_isSome {vs : List (Option ℚ)}
    (h : vs.any Option.isSome = true) : ∃ q, colMin vs = some q := by
  have hne := filterMap_id_ne_nil h
  rw [colMin]
  cases hx : vs.filterMap id with
  | nil => exact absurd hx hne
  | cons a l => exact ⟨_, rfl⟩

/-! ## Claim theorems -/

/-- C1 (counterexample): the row `("t0", missing, 50, 10)` has both of its
present values inside their validation intervals (Humidity 50 ∈ [0,80],
Wind Speed 10 ∈ [3,150]) and only its Temperature missing, yet the Cleaner
drops it — its output on the one-row table is empty — because a missing
value fails the pandas range comparison; nothing is kept or imputed. -/
theorem clean_data_drops_row_with_missing_value :
    humOk ⟨"t0", none, some 50, some 10⟩ = true ∧
    windOk ⟨"t0", none, some 50, some 10⟩ = true ∧
    (⟨"t0", none, some 50, some 10⟩ : Row).temperature = none ∧
    clean_data [⟨"t0", none, some 50, some 10⟩] = [] := by
  decide

/-- C1 (amended): a row with a missing value in Temperature, Humidity or
Wind Speed is never kept by the Cleaner — the missing value fails the range
comparison, so the row is dropped by the filter — and consequently no
missing value survives filtering and the imputation step replaces nothing:
the Cleaner's output is exactly the filtered row list. -/
theorem clean_data_missing_value_row_dropped (rows : List Row) (r : Row)
    (hmiss : r.temperature = none ∨ r.humidity = none ∨ r.windSpeed = none) :
    r ∉ clean_data rows ∧ clean_data rows = filterRows rows := by
  constructor
  · intro hmem
    rw [clean_data_eq_filter] at hmem
    obtain ⟨hto, hho, hwo⟩ := rowValid_parts (List.mem_filter.mp hmem).2
    rcases hmiss with hm | hm | hm
    · obtain ⟨x, hx, -⟩ := tempOk_some hto
      rw [hm] at hx
      exact Option.noConfusion hx
    · obtain ⟨x, hx, -⟩ := humOk_some hho
      rw [hm] at hx
      exact Option.noConfusion hx
    · obtain ⟨x, hx, -⟩ := windOk_some hwo
      rw [hm] at hx
      exact Option.noConfusion hx
  · rw [clean_data_eq_filter, filterRows_eq_filter]

/-- C1 (amended, witness): the concrete missing-Temperature row is dropped
from the one-row table. -/
theorem clean_data_missing_value_row_dropped_witness :
    (⟨"t0", none, some 50, some 10⟩ : Row) ∉ clean_data [⟨"t0", none, some 50, some 10⟩] ∧
    clean_data [⟨"t0", none, some 50, some 10⟩] = filterRows [⟨"t0", none, some 50, some 10⟩] :=
  clean_data_missing_value_row_dropped _ _ (Or.inl rfl)

/-- C2: every row of the Cleaner's output has all three numeric values
present, with Temperature ∈ [0,60], Humidity ∈ [0,80] and
Wind Speed ∈ [3,150] — no exceptions. -/
theorem clean_data_output_in_range (rows : List Row) (r : Row)
    (h : r ∈ clean_data rows) :
    ∃ t hu w, r.temperature = some t ∧ r.humidity = some hu ∧ r.windSpeed = some w ∧
      0 ≤ t ∧ t ≤ 60 ∧ 0 ≤ hu ∧ hu ≤ 80 ∧ 3 ≤ w ∧ w ≤ 150 := by
  rw [clean_data_eq_filter] at h
  obtain ⟨hto, hho, hwo⟩ := rowValid_parts (List.mem_filter.mp h).2
  obtain ⟨t, ht, ht1, ht2⟩ := tempOk_some hto
  obtain ⟨hu, hh, hh1, hh2⟩ := humOk_some hho
  obtain ⟨w, hw, hw1, hw2⟩ := windOk_some hwo
  exact ⟨t, hu, w, ht, hh, hw, ht1, ht2, hh1, hh2, hw1, hw2⟩

/-- C2 (witness): instantiated on a surviving concrete row. -/
theorem clean_data_output_in_range_witness :
    ∃ t hu w, (⟨"t0", some 20, some 50, some 10⟩ : Row).temperature = some t ∧
      (⟨"t0", some 20, some 50, some 10⟩ : Row).humidity = some hu ∧
      (⟨"t0", some 20, some 50, some 10⟩ : Row).windSpeed = some w ∧
      0 ≤ t ∧ t ≤ 60 ∧ 0 ≤ hu ∧ hu ≤ 80 ∧ 3 ≤ w ∧ w ≤ 150 :=
  clean_data_output_in_range [⟨"t0", some 20, some 50, some 10⟩]
    ⟨"t0", some 20, some 50, some 10⟩ (by decide)

/-- C3: the Cleaner is a pure row filter: its output is exactly the
subsequence of its input rows passing the three range checks, in original
order, with all four field values unchanged; and a row with a missing
numeric value fails the checks, so the imputation step never alters any
value. -/
theorem clean_data_is_pure_filter :
    (∀ rows : List Row, clean_data rows = rows.filter rowValid) ∧
    (∀ ti hu wi, rowValid ⟨ti, none, hu, wi⟩ = false) ∧
    (∀ ti te wi, rowValid ⟨ti, te, none, wi⟩ = false) ∧
    (∀ ti te hu, rowValid ⟨ti, te, hu, none⟩ = false) := by
  refine ⟨clean_data_eq_filter, ?_, ?_, ?_⟩
  · intro ti hu wi
    simp [rowValid, tempOk, cmpGe]
  · intro ti te wi
    simp [rowValid, humOk, cmpGe]
  · intro ti te hu
    simp [rowValid, windOk, cmpGe]

/-- C4: on a batch whose values all lie inside the validation bounds (every
cell the Writer emits being present), the Cleaner keeps every row and
changes no value: cleaning is idempotent on already-valid data. -/
theorem clean_data_idempotent_on_valid (b : RawWeatherBatch)
    (h1 : b.temperature_2m.length = b.time.length)
    (h2 : b.relative_humidity_2m.length = b.time.length)
    (h3 : b.wind_speed_10m.length = b.time.length)
    (ht : ∀ x ∈ b.temperature_2m, 0 ≤ x ∧ x ≤ 60)
    (hh : ∀ x ∈ b.relative_humidity_2m, 0 ≤ x ∧ x ≤ 80)
    (hw : ∀ x ∈ b.wind_speed_10m, 3 ≤ x ∧ x ≤ 150) :
    clean_data (writerRows b) = writerRows b := by
  rw [clean_data_eq_filter,
    List.filter_eq_self.mpr (writerRows_valid b h1 h2 h3 ht hh hw)]

/-- C4 (witness): instantiated on a concrete two-row in-bounds batch. -/
theorem clean_data_idempotent_on_valid_witness :
    clean_data (writerRows ⟨["t0", "t1"], [20, 30], [50, 40], [10, 20]⟩) =
      writerRows ⟨["t0", "t1"], [20, 30], [50, 40], [10, 20]⟩ :=
  clean_data_idempotent_on_valid ⟨["t0", "t1"], [20, 30], [50, 40], [10, 20]⟩
    rfl rfl rfl (by decide) (by decide) (by decide)

/-- C5: on a present batch whose four sequences have equal length, the
Writer produces exactly the fixed header row followed by exactly
`len(time)` data rows, data row `i` holding the values at position `i` of
the four sequences, in original order. -/
theorem save_to_csv_header_and_rows (b : RawWeatherBatch)
    (h1 : b.temperature_2m.length = b.time.length)
    (h2 : b.relative_humidity_2m.length = b.time.length)
    (h3 : b.wind_speed_10m.length = b.time.length) :
    ∃ t, save_to_csv (some b) = WriterResult.wrote t ∧
      t.header = csvHeader ∧
      t.rows.length = b.time.length ∧
      ∀ (i : ℕ) (hi : i < b.time.length),
        t.rows.getD i dummyRow =
          ⟨b.time.get ⟨i, hi⟩,
           some (b.temperature_2m.get ⟨i, by omega⟩),
           some (b.relative_humidity_2m.get ⟨i, by omega⟩),
           some (b.wind_speed_10m.get ⟨i, by omega⟩)⟩ := by
  refine ⟨⟨csvHeader, writerRows b⟩, rfl, rfl, ?_, ?_⟩
  · simp [writerRows]
  · intro i hi
    rw [writerRows, List.getD_eq_getElem _ _ (by simpa using hi)]
    simp only [List.getElem_map, List.getElem_range]
    rw [List.getD_eq_getElem _ _ hi,
      List.getD_eq_getElem _ _ (by omega : i < b.temperature_2m.length),
      List.getD_eq_getElem _ _ (by omega : i < b.relative_humidity_2m.length),
      List.getD_eq_getElem _ _ (by omega : i < b.wind_speed_10m.length)]
    simp [List.get_eq_getElem]

/-- C5 (witness): instantiated on a concrete two-row batch. -/
theorem save_to_csv_header_and_rows_witness :
    ∃ t, save_to_csv (some ⟨["t0", "t1"], [20, 999], [50, 40], [10, 20]⟩) =
        WriterResult.wrote t ∧
      t.header = csvHeader ∧
      t.rows.length = (["t0", "t1"] : List String).length ∧
      ∀ (i : ℕ) (hi : i < (["t0", "t1"] : List String).length),
        t.rows.getD i dummyRow =
          ⟨(["t0", "t1"] : List String).get ⟨i, hi⟩,
           some (([20, 999] : List ℚ).get ⟨i, by simpa using hi⟩),
           some (([50, 40] : List ℚ).get ⟨i, by simpa using hi⟩),
           some (([10, 20] : List ℚ).get ⟨i, by simpa using hi⟩)⟩ :=
  save_to_csv_header_and_rows ⟨["t0", "t1"], [20, 999], [50, 40], [10, 20]⟩ rfl rfl rfl

/-- C6 (counterexample): on the concrete HTTP-500 response the Fetcher
reports the status code and returns `None`, and the pipeline's
`if weather_data:` guard is then falsy, so the run never invokes the Writer
at all: in particular the Writer never takes its "no data available to
save" branch — the report the claim attributes to it does not occur. -/
theorem pipeline_non200_no_writer_report :
    fetch_weather_data ⟨500, false, false, ⟨[], [], [], []⟩⟩ = FetchResult.httpError 500 ∧
    main_pipeline ⟨500, false, false, ⟨[], [], [], []⟩⟩ = none ∧
    main_pipeline ⟨500, false, false, ⟨[], [], [], []⟩⟩ ≠ some WriterResult.noData := by
  decide

/-- C6 (amended): on any non-200 HTTP status the Fetcher reports the status
code and returns `None`; the `if weather_data:` guard in `__main__` is then
falsy, so the Writer is never called — it does not report "no data to
save" — and no I/O is performed: no output file is created or
overwritten. -/
theorem fetch_non200_pipeline_skips_writer (r : ApiResponse)
    (h : r.status_code ≠ 200) :
    fetch_weather_data r = FetchResult.httpError r.status_code ∧
    fetchToOption (fetch_weather_data r) = none ∧
    main_pipeline r = none := by
  have hf : fetch_weather_data r = FetchResult.httpError r.status_code := by
    rw [fetch_weather_data, if_neg h]
  have ho : fetchToOption (fetch_weather_data r) = none := by
    rw [hf]
    rfl
  exact ⟨hf, ho, by simp only [main_pipeline, ho]⟩

/-- C6 (amended, witness): instantiated at HTTP status 500. -/
theorem fetch_non200_pipeline_skips_writer_witness :
    fetch_weather_data ⟨500, false, false, ⟨[], [], [], []⟩⟩ = FetchResult.httpError 500 ∧
    fetchToOption (fetch_weather_data ⟨500, false, false, ⟨[], [], [], []⟩⟩) = none ∧
    main_pipeline ⟨500, false, false, ⟨[], [], [], []⟩⟩ = none :=
  fetch_non200_pipeline_skips_writer ⟨500, false, false, ⟨[], [], [], []⟩⟩ (by decide)

/-- C9: the Fetcher's three cases: status 200 with the `hourly` object and
its `temperature_2m` field present returns the `hourly` object; status 200
with that structure absent reports the missing-field warning and returns
`None`; any other status reports the status code and returns `None`. -/
theorem fetch_weather_data_cases (r : ApiResponse) :
    (r.status_code = 200 ∧ r.hasHourly = true ∧ r.hourlyHasTemperature2m = true →
      fetch_weather_data r = FetchResult.ok r.hourly) ∧
    (r.status_code = 200 ∧ ¬(r.hasHourly = true ∧ r.hourlyHasTemperature2m = true) →
      fetch_weather_data r = FetchResult.missingField ∧
      fetchToOption (fetch_weather_data r) = none) ∧
    (r.status_code ≠ 200 →
      fetch_weather_data r = FetchResult.httpError r.status_code ∧
      fetchToOption (fetch_weather_data r) = none) := by
  refine ⟨?_, ?_, ?_⟩
  · rintro ⟨hs, hh, ht⟩
    rw [fetch_weather_data, if_pos hs, if_pos (by rw [hh, ht]; rfl)]
  · rintro ⟨hs, hn⟩
    have hcond : (r.hasHourly && r.hourlyHasTemperature2m) = false := by
      cases hH : r.hasHourly <;> cases hT : r.hourlyHasTemperature2m <;> simp_all
    have hfe : fetch_weather_data r = FetchResult.missingField := by
      rw [fetch_weather_data, if_pos hs, if_neg]
      rw [hcond]
      exact Bool.false_ne_true
    exact ⟨hfe, by rw [hfe]; rfl⟩
  · intro h
    have hf : fetch_weather_data r = FetchResult.httpError r.status_code := by
      rw [fetch_weather_data, if_neg h]
    exact ⟨hf, by rw [hf]; rfl⟩

/-- C9 (witness): the three cases exercised on concrete responses. -/
theorem fetch_weather_data_cases_witness :
    fetch_weather_data ⟨200, true, true, ⟨["t"], [1], [2], [3]⟩⟩ =
      FetchResult.ok ⟨["t"], [1], [2], [3]⟩ ∧
    fetch_weather_data ⟨200, true, false, ⟨["t"], [1], [2], [3]⟩⟩ =
      FetchResult.missingField ∧
    fetch_weather_data ⟨500, true, true, ⟨["t"], [1], [2], [3]⟩⟩ =
      FetchResult.httpError 500 :=
  ⟨(fetch_weather_data_cases ⟨200, true, true, ⟨["t"], [1], [2], [3]⟩⟩).1 ⟨rfl, rfl, rfl⟩,
   ((fetch_weather_data_cases ⟨200, true, false, ⟨["t"], [1], [2], [3]⟩⟩).2.1
     ⟨rfl, by decide⟩).1,
   ((fetch_weather_data_cases ⟨500, true, true, ⟨["t"], [1], [2], [3]⟩⟩).2.2 (by decide)).1⟩

/-- C10: when the range filter removes every input row (in particular on an
empty input), the Cleaner writes a file holding only the header row and
terminates normally: the mean over zero rows (pandas NaN) is never used,
because there is no row left to impute. -/
theorem clean_data_all_filtered_header_only (rows : List Row)
    (h : filterRows rows = []) :
    clean_data_file rows = ⟨csvHeader, []⟩ := by
  rw [clean_data_file, clean_data, h]
  rfl

/-- C10 (witness): a one-row table whose Temperature 100 is out of range is
filtered down to nothing and yields the header-only file. -/
theorem clean_data_all_filtered_header_only_witness :
    clean_data_file [⟨"t0", some 100, some 50, some 10⟩] = ⟨csvHeader, []⟩ :=
  clean_data_all_filtered_header_only [⟨"t0", some 100, some 50, some 10⟩] (by decide)

/-- A concrete cleaned table realizing Scenario 3: three rows with
Temperatures 10, 20 and 30. -/
def scenario3Rows : List Row :=
  [⟨"t0", some 10, some 50, some 10⟩, ⟨"t1", some 20, some 50, some 10⟩,
   ⟨"t2", some 30, some 50, some 10⟩]

/-- C7 (counterexample): on the three-row table with Temperatures
10, 20, 30 the Summarizer does print `Avg Temperature: 20.00`,
`Max Temperature: 30.00` and `Min Temperature: 10.00`, but the record count
goes through the same `f"{value:.2f}"` format as every other metric, so the
printed line is `Total Records: 3.00` and the line `Total Records: 3`
claimed by the spec is never printed. -/
theorem summarize_scenario3_total_records_line :
    summarize_data scenario3Rows = SummarizeResult.report
      ["Total Records: 3.00", "Avg Temperature: 20.00", "Max Temperature: 30.00",
       "Min Temperature: 10.00", "Avg Humidity: 50.00", "Avg Wind Speed: 10.00"] ∧
    "Total Records: 3" ∉
      ["Total Records: 3.00", "Avg Temperature: 20.00", "Max Temperature: 30.00",
       "Min Temperature: 10.00", "Avg Humidity: 50.00", "Avg Wind Speed: 10.00"] := by
  constructor
  · have h1 : round ((3:ℚ) * 100) = 300 := by norm_num
    have h2 : round ((20:ℚ) * 100) = 2000 := by norm_num
    have h3 : round ((30:ℚ) * 100) = 3000 := by norm_num
    have h4 : round ((10:ℚ) * 100) = 1000 := by norm_num
    have h5 : round ((50:ℚ) * 100) = 5000 := by norm_num
    norm_num [summarize_data, scenario3Rows, colMean, colMax, colMin, List.filterMap,
      max_def, min_def, format2, formatVal, h1, h2, h3, h4, h5]
    decide
  · decide

/-- C7 (amended): for every table of exactly three rows whose Temperatures
are 10, 20 and 30, the Summarizer prints `Avg Temperature: 20.00`,
`Max Temperature: 30.00`, `Min Temperature: 10.00` and
`Total Records: 3.00` (the record count being printed through the same
two-decimal format as the other metrics). -/
theorem summarize_scenario3_amended (rows : List Row)
    (h : rows.map (·.temperature) = [some 10, some 20, some 30]) :
    ∃ L, summarize_data rows = SummarizeResult.report L ∧
      "Total Records: 3.00" ∈ L ∧ "Avg Temperature: 20.00" ∈ L ∧
      "Max Temperature: 30.00" ∈ L ∧ "Min Temperature: 10.00" ∈ L := by
  have hlen : rows.length = 3 := by simpa using congrArg List.length h
  have hne : ¬(rows.length = 0) := by omega
  have e1 : "Total Records: " ++ format2 (3 : ℚ) = "Total Records: 3.00" := by
    have hr : round ((3:ℚ) * 100) = 300 := by norm_num
    rw [format2, hr]
    decide
  have e2 : "Avg Temperature: " ++ formatVal (colMean [some (10:ℚ), some 20, some 30]) =
      "Avg Temperature: 20.00" := by
    have hc : colMean [some (10:ℚ), some 20, some 30] = some 20 := by
      norm_num [colMean, List.filterMap]
    have hr : round ((20:ℚ) * 100) = 2000 := by norm_num
    simp only [hc, formatVal, format2, hr]
    decide
  have e3 : "Max Temperature: " ++ formatVal (colMax [some (10:ℚ), some 20, some 30]) =
      "Max Temperature: 30.00" := by
    have hc : colMax [some (10:ℚ), some 20, some 30] = some 30 := by
      norm_num [colMax, List.filterMap, max_def]
    have hr : round ((30:ℚ) * 100) = 3000 := by norm_num
    simp only [hc, formatVal, format2, hr]
    decide
  have e4 : "Min Temperature: " ++ formatVal (colMin [some (10:ℚ), some 20, some 30]) =
      "Min Temperature: 10.00" := by
    have hc : colMin [some (10:ℚ), some 20, some 30] = some 10 := by
      norm_num [colMin, List.filterMap, min_def]
    have hr : round ((10:ℚ) * 100) = 1000 := by norm_num
    simp only [hc, formatVal, format2, hr]
    decide
  rw [summarize_data, if_neg hne, h, hlen]
  refine ⟨_, rfl, ?_, ?_, ?_, ?_⟩ <;> simp [e1, e2, e3, e4, Nat.cast_ofNat]

/-- C7 (amended, witness): instantiated on the concrete Scenario-3 table. -/
theorem summarize_scenario3_amended_witness :
    ∃ L, summarize_data scenario3Rows = SummarizeResult.report L ∧
      "Total Records: 3.00" ∈ L ∧ "Avg Temperature: 20.00" ∈ L ∧
      "Max Temperature: 30.00" ∈ L ∧ "Min Temperature: 10.00" ∈ L :=
  summarize_scenario3_amended scenario3Rows (by rfl)

/-- C8 (counterexample): on the non-empty one-row table whose numeric cells
are all missing, the column statistics are NaN and the Summarizer prints
`Avg Temperature: nan` — a line that does not carry two decimal places —
so the claim does not hold for every non-empty input table. -/
theorem summarize_nan_not_two_decimals :
    summarize_data [⟨"t", none, none, none⟩] = SummarizeResult.report
      ["Total Records: 1.00", "Avg Temperature: nan", "Max Temperature: nan",
       "Min Temperature: nan", "Avg Humidity: nan", "Avg Wind Speed: nan"] ∧
    endsTwoDigits "Avg Temperature: nan" = false := by
  constructor
  · have h1 : round ((1:ℚ) * 100) = 100 := by norm_num
    norm_num [summarize_data, colMean, colMax, colMin, List.filterMap, format2,
      formatVal, h1]
    decide
  · decide

/-- C8 (amended): for every non-empty input table each of whose three
numeric columns holds at least one present value, the Summarizer prints
exactly six metric lines, in the fixed label order Total Records,
Avg Temperature, Max Temperature, Min Temperature, Avg Humidity,
Avg Wind Speed, each value formatted with exactly two decimal places, and
the Total Records value is the row count of the input, rendered through the
same format. -/
theorem summarize_six_metrics_two_decimals (rows : List Row)
    (h0 : rows.length ≠ 0)
    (h1 : (rows.map (·.temperature)).any Option.isSome = true)
    (h2 : (rows.map (·.humidity)).any Option.isSome = true)
    (h3 : (rows.map (·.windSpeed)).any Option.isSome = true) :
    ∃ v1 v2 v3 v4 v5 v6,
      summarize_data rows = SummarizeResult.report
        ["Total Records: " ++ v1, "Avg Temperature: " ++ v2, "Max Temperature: " ++ v3,
         "Min Temperature: " ++ v4, "Avg Humidity: " ++ v5, "Avg Wind Speed: " ++ v6] ∧
      v1 = format2 (rows.length : ℚ) ∧
      endsTwoDigits ("Total Records: " ++ v1) = true ∧
      endsTwoDigits ("Avg Temperature: " ++ v2) = true ∧
      endsTwoDigits ("Max Temperature: " ++ v3) = true ∧
      endsTwoDigits ("Min Temperature: " ++ v4) = true ∧
      endsTwoDigits ("Avg Humidity: " ++ v5) = true ∧
      endsTwoDigits ("Avg Wind Speed: " ++ v6) = true := by
  obtain ⟨q2, hq2⟩ := colMean_isSome h1
  obtain ⟨q3, hq3⟩ := colMax_isSome h1
  obtain ⟨q4, hq4⟩ := colMin_isSome h1
  obtain ⟨q5, hq5⟩ := colMean_isSome h2
  obtain ⟨q6, hq6⟩ := colMean_isSome h3
  refine ⟨format2 (rows.length : ℚ), format2 q2, format2 q3, format2 q4,
    format2 q5, format2 q6, ?_, rfl, ?_, ?_, ?_, ?_, ?_, ?_⟩
  · rw [summarize_data, if_neg h0, hq2, hq3, hq4, hq5, hq6]
    rfl
  all_goals exact endsTwoDigits_label_format2 _ _

/-- C8 (amended, witness): the theorem instantiated on a concrete one-row
table, from which the report is in particular not the empty-data message. -/
theorem summarize_six_metrics_two_decimals_witness :
    summarize_data [⟨"t", some 10, some 50, some 10⟩] ≠ SummarizeResult.noData := by
  obtain ⟨v1, v2, v3, v4, v5, v6, he, -⟩ :=
    summarize_six_metrics_two_decimals [⟨"t", some 10, some 50, some 10⟩]
      (by decide) (by decide) (by decide) (by decide)
  rw [he]
  exact fun hcon => SummarizeResult.noConfusion hcon

end Weather
